import Mathlib

/-!
Verification development for the smart-agent-router core: a shallow
embedding of the routing pipeline (input/output guardrails, the
complexity classifier and its routing policy, the pipeline orchestrator
and the cost tracker), with theorems checking the natural-language
specification against the code.

Modelling conventions:
* Python floats are modelled as exact rationals.  Every numeric value a
  claim touches (confidence values, cost rates) is an exact decimal, and
  the one float comparison against an integer quantity (the 80%% sentence
  cutoff in the output guard) provably agrees with the exact rational
  comparison for integer operands, so no claim is sensitive to binary
  rounding.
* Python strings are Lean strings (lists of characters); `len`,
  slicing, `find`/`rfind`, `strip`, `lower` and substring containment
  are modelled on the character list.
* `json.loads` is modelled by an executable recursive-descent parser
  `jsonLoads` over a JSON value type `JVal`.  Python-specific JSON
  extensions that no claim touches (NaN/Infinity literals, surrogate
  pairing of escapes) are not modelled.
* LLM calls are oracles: the text the model returns is an explicit
  parameter, and `invoke` computes the token/cost bookkeeping from it
  exactly as `LLMClient.invoke` does.
-/

/-- Left brace character, written via its code point. -/
def lbrace : Char := Char.ofNat 123

/-- Right brace character, written via its code point. -/
def rbrace : Char := Char.ofNat 125

/-- JSON values, the possible results of Python `json.loads`.
Numbers are exact rationals (Python distinguishes int and float, but
every consumer in the modelled code passes numbers through `float`). -/
inductive JVal where
  | jnull : JVal
  | jbool : Bool → JVal
  | jnum : ℚ → JVal
  | jstr : String → JVal
  | jarr : List JVal → JVal
  | jobj : List (String × JVal) → JVal

/-- Characters stripped by Python `str.strip()` (ASCII whitespace;
Unicode space classes are not modelled, no claim touches them). -/
def pyWs (c : Char) : Bool :=
  c = ' ' || c = '\t' || c = '\n' || c = '\r' || c = '\x0b' || c = '\x0c'

/-- Python `str.strip()`: drop leading and trailing whitespace. -/
def pyStrip (s : String) : String :=
  ⟨((s.data.dropWhile pyWs).reverse.dropWhile pyWs).reverse⟩

/-- Python `str.lower()` (ASCII case mapping; the guard patterns are
all ASCII). -/
def pyLower (s : String) : String :=
  ⟨s.data.map Char.toLower⟩

/-- Does `pre` occur at the head of `l`? -/
def prefixMatch : List Char → List Char → Bool
  | [], _ => true
  | _ :: _, [] => false
  | a :: as, b :: bs => a = b && prefixMatch as bs

/-- Python substring containment `needle in hay`. -/
def subMatch (needle : List Char) : List Char → Bool
  | [] => prefixMatch needle []
  | c :: rest => prefixMatch needle (c :: rest) || subMatch needle rest

/-- Python `hay.find(needle)` as an option: index of the first
occurrence of `needle`. -/
def findSub (needle : List Char) : List Char → Option Nat
  | [] => if prefixMatch needle [] then some 0 else none
  | c :: rest =>
    if prefixMatch needle (c :: rest) then some 0
    else (findSub needle rest).map (· + 1)

/-- Index of the first character satisfying `p` (Python `str.find`). -/
def findCharIdx (p : Char → Bool) (l : List Char) : Option Nat :=
  List.findIdx? p l

/-- Index of the last character satisfying `p` (Python `str.rfind`). -/
def rfindCharIdx (p : Char → Bool) (l : List Char) : Option Nat :=
  match List.findIdx? p l.reverse with
  | none => none
  | some i => some (l.length - 1 - i)

/-- JSON insignificant whitespace accepted by `json.loads`. -/
def jsonWs (c : Char) : Bool :=
  c = ' ' || c = '\t' || c = '\n' || c = '\r'

/-- Skip JSON whitespace. -/
def skipWs (l : List Char) : List Char := l.dropWhile jsonWs

/-- Digit list to natural number. -/
def digitsToNat (l : List Char) : Nat :=
  l.foldl (fun acc c => acc * 10 + (c.toNat - '0'.toNat)) 0

/-- Hexadecimal digit test for `\uXXXX` escapes. -/
def isHexDigitChar (c : Char) : Bool :=
  c.isDigit || ('a' ≤ c && c ≤ 'f') || ('A' ≤ c && c ≤ 'F')

/-- Value of a hexadecimal digit. -/
def hexVal (c : Char) : Nat :=
  if c.isDigit then c.toNat - '0'.toNat
  else if 'a' ≤ c then c.toNat - 'a'.toNat + 10
  else c.toNat - 'A'.toNat + 10

/-- One-character JSON escapes. -/
def decodeEsc : Char → Option Char
  | '\"' => some '\"'
  | '\\' => some '\\'
  | '/' => some '/'
  | 'b' => some '\x08'
  | 'f' => some '\x0c'
  | 'n' => some '\n'
  | 'r' => some '\r'
  | 't' => some '\t'
  | _ => none

/-- Decode one JSON string literal body (after the opening quote),
returning the decoded characters and the input after the closing
quote.  Strict mode: raw control characters are rejected; the common
escapes and `\uXXXX` (without surrogate pairing) are decoded. -/
def parseStrChars : List Char → Option (List Char × List Char)
  | [] => none
  | '\"' :: rest => some ([], rest)
  | '\\' :: 'u' :: a :: b :: c :: d :: tail =>
    if isHexDigitChar a && isHexDigitChar b && isHexDigitChar c && isHexDigitChar d then
      match parseStrChars tail with
      | some (cs, rem) =>
        some (Char.ofNat (((hexVal a * 16 + hexVal b) * 16 + hexVal c) * 16 + hexVal d) :: cs, rem)
      | none => none
    else none
  | '\\' :: e :: rest =>
    match decodeEsc e with
    | some dc =>
      match parseStrChars rest with
      | some (cs, rem) => some (dc :: cs, rem)
      | none => none
    | none => none
  | c :: rest =>
    if c.toNat < 32 then none
    else
      match parseStrChars rest with
      | some (cs, rem) => some (c :: cs, rem)
      | none => none

/-- Parse a JSON number (grammar of RFC 8259): optional minus, integer
part without leading zeros, optional fraction, optional exponent. -/
def parseNumber (l : List Char) : Option (ℚ × List Char) :=
  let (neg, l₁) : Bool × List Char :=
    match l with
    | '-' :: rest => (true, rest)
    | _ => (false, l)
  let intDigits := l₁.takeWhile Char.isDigit
  let afterInt := l₁.dropWhile Char.isDigit
  if intDigits = [] then none
  else if intDigits.length > 1 && intDigits.headI = '0' then none
  else
    let (fracDigits, afterFrac) : List Char × List Char :=
      match afterInt with
      | '.' :: rest => (rest.takeWhile Char.isDigit, rest.dropWhile Char.isDigit)
      | _ => ([], afterInt)
    match afterInt with
    | '.' :: rest =>
      if rest.takeWhile Char.isDigit = [] then none
      else parseNumberExp neg intDigits fracDigits afterFrac
    | _ => parseNumberExp neg intDigits fracDigits afterFrac
where
  /-- Handle the optional exponent and assemble the rational value. -/
  parseNumberExp (neg : Bool) (intDigits fracDigits : List Char)
      (l : List Char) : Option (ℚ × List Char) :=
    let finish (e : ℤ) (rem : List Char) : Option (ℚ × List Char) :=
      let mantissa : ℚ :=
        (digitsToNat intDigits : ℚ) +
          (digitsToNat fracDigits : ℚ) / (10 : ℚ) ^ fracDigits.length
      let v : ℚ := mantissa * (10 : ℚ) ^ e
      some (if neg then -v else v, rem)
    match l with
    | 'e' :: rest => parseExpTail finish rest
    | 'E' :: rest => parseExpTail finish rest
    | _ => finish 0 l
  /-- Parse the exponent digits after `e`/`E`. -/
  parseExpTail (finish : ℤ → List Char → Option (ℚ × List Char)) :
      List Char → Option (ℚ × List Char)
    | rest =>
      let (eneg, r₁) : Bool × List Char :=
        match rest with
        | '-' :: r => (true, r)
        | '+' :: r => (false, r)
        | _ => (false, rest)
      let eDigits := r₁.takeWhile Char.isDigit
      if eDigits = [] then none
      else
        let e : ℤ := digitsToNat eDigits
        finish (if eneg then -e else e) (r₁.dropWhile Char.isDigit)

mutual

/-- Parse one JSON value (fuel-indexed recursive descent). -/
def parseVal : Nat → List Char → Option (JVal × List Char)
  | 0, _ => none
  | fuel + 1, l =>
    match l with
    | [] => none
    | c :: rest =>
      if c = lbrace then
        let l₂ := skipWs rest
        match l₂ with
        | d :: rest₂ =>
          if d = rbrace then some (.jobj [], rest₂)
          else
            match parseMembers fuel l₂ with
            | some (fields, rem) => some (.jobj fields, rem)
            | none => none
        | [] => none
      else if c = '[' then
        let l₂ := skipWs rest
        match l₂ with
        | ']' :: rest₂ => some (.jarr [], rest₂)
        | _ =>
          match parseItems fuel l₂ with
          | some (items, rem) => some (.jarr items, rem)
          | none => none
      else if c = '\"' then
        match parseStrChars rest with
        | some (cs, rem) => some (.jstr ⟨cs⟩, rem)
        | none => none
      else if prefixMatch "true".data l then some (.jbool true, l.drop 4)
      else if prefixMatch "false".data l then some (.jbool false, l.drop 5)
      else if prefixMatch "null".data l then some (.jnull, l.drop 4)
      else
        match parseNumber l with
        | some (q, rem) => some (.jnum q, rem)
        | none => none

/-- Parse one or more `"key": value` members, then the closing brace. -/
def parseMembers : Nat → List Char → Option (List (String × JVal) × List Char)
  | 0, _ => none
  | fuel + 1, l =>
    match l with
    | '\"' :: rest =>
      match parseStrChars rest with
      | some (keyCs, afterKey) =>
        match skipWs afterKey with
        | ':' :: afterColon =>
          match parseVal fuel (skipWs afterColon) with
          | some (v, afterVal) =>
            match skipWs afterVal with
            | ',' :: afterComma =>
              match parseMembers fuel (skipWs afterComma) with
              | some (fields, rem) => some ((⟨keyCs⟩, v) :: fields, rem)
              | none => none
            | d :: rem =>
              if d = rbrace then some ([(⟨keyCs⟩, v)], rem) else none
            | [] => none
          | none => none
        | _ => none
      | none => none
    | _ => none

/-- Parse one or more array items, then the closing bracket. -/
def parseItems : Nat → List Char → Option (List JVal × List Char)
  | 0, _ => none
  | fuel + 1, l =>
    match parseVal fuel l with
    | some (v, afterVal) =>
      match skipWs afterVal with
      | ',' :: afterComma =>
        match parseItems fuel (skipWs afterComma) with
        | some (items, rem) => some (v :: items, rem)
        | none => none
      | ']' :: rem => some ([v], rem)
      | _ => none
    | none => none

end

/-- Python `json.loads`: parse the whole string as one JSON value,
allowing surrounding whitespace and nothing else. -/
def jsonLoads (s : String) : Option JVal :=
  let cs := skipWs s.data
  match parseVal (cs.length + 1) cs with
  | some (v, rest) => if skipWs rest = [] then some v else none
  | none => none

/-- Slice `text[start:end]` taken by `safe_json_parse` between the
first left brace (`text.find`) and just past the last right brace
(`text.rfind + 1`); `none` when Python's guard
`start != -1 and end > start` fails. -/
def braceSlice (t : String) : Option String :=
  let cs := t.data
  match findCharIdx (· = lbrace) cs with
  | none => none
  | some s =>
    match rfindCharIdx (· = rbrace) cs with
    | none => none
    | some e =>
      if e + 1 > s then some ⟨(cs.drop s).take (e + 1 - s)⟩ else none

/-- Embedding of `safe_json_parse` (src/utils/helpers.py): strip, try a
direct parse, and only when the text contains a markdown fence try the
first-brace-to-last-brace slice; otherwise give up with `none`. -/
def safe_json_parse (text : String) : Option JVal :=
  let t := pyStrip text
  match jsonLoads t with
  | some v => some v
  | none =>
    if subMatch "```".data t.data then
      match braceSlice t with
      | some sl => jsonLoads sl
      | none => none
    else none

/-- Python `dict` lookup for a parsed JSON object: with duplicate keys
the last occurrence wins, as in `json.loads`. -/
def objGet (fields : List (String × JVal)) (key : String) : Option JVal :=
  List.lookup key fields.reverse

/-- Python `float(str)` on a stripped string: sign, digits with an
optional decimal point (at least one digit overall) and an optional
exponent.  The `inf`/`nan` words and digit underscores are not
modelled; no claim touches them. -/
def pyFloatOfString (s : String) : Option ℚ :=
  let l := (pyStrip s).data
  let (neg, l₁) : Bool × List Char :=
    match l with
    | '-' :: rest => (true, rest)
    | '+' :: rest => (false, rest)
    | _ => (false, l)
  let intDigits := l₁.takeWhile Char.isDigit
  let afterInt := l₁.dropWhile Char.isDigit
  let (fracDigits, afterFrac) : List Char × List Char :=
    match afterInt with
    | '.' :: rest => (rest.takeWhile Char.isDigit, rest.dropWhile Char.isDigit)
    | _ => ([], afterInt)
  if intDigits = [] && fracDigits = [] then none
  else
    let mantissa : ℚ :=
      (digitsToNat intDigits : ℚ) + (digitsToNat fracDigits : ℚ) / (10 : ℚ) ^ fracDigits.length
    let signed : ℚ := if neg then -mantissa else mantissa
    match afterFrac with
    | [] => some signed
    | 'e' :: rest => pyFloatExp signed rest
    | 'E' :: rest => pyFloatExp signed rest
    | _ => none
where
  /-- Exponent part of a `float()` literal. -/
  pyFloatExp (mantissa : ℚ) (rest : List Char) : Option ℚ :=
    let (eneg, r₁) : Bool × List Char :=
      match rest with
      | '-' :: r => (true, r)
      | '+' :: r => (false, r)
      | _ => (false, rest)
    let eDigits := r₁.takeWhile Char.isDigit
    if eDigits = [] || r₁.dropWhile Char.isDigit ≠ [] then none
    else some (mantissa * (10 : ℚ) ^ (if eneg then -(digitsToNat eDigits : ℤ) else digitsToNat eDigits))

/-- Python `float(x)` on a JSON value: numbers pass through, booleans
become 0/1, numeric strings are parsed; `None`, lists and dicts raise
`TypeError` and non-numeric strings raise `ValueError` (both modelled
as `none`). -/
def pyFloat : JVal → Option ℚ
  | .jnum q => some q
  | .jbool b => some (if b then 1 else 0)
  | .jstr s => pyFloatOfString s
  | _ => none

/-- Python `==` between a JSON value and a string literal: only equal
strings compare equal; values of other types are never equal to a
string. -/
def jvalEqStr : JVal → String → Bool
  | .jstr t, s => t = s
  | _, _ => false

/-- Result of the complexity classification step
(`RoutingDecision` in src/agents/agent.py).  `complexity` and `reason`
come straight out of the parsed JSON object, so they carry whatever
type the router emitted; `confidence` has passed through `float()`. -/
structure RoutingDecision where
  complexity : JVal
  confidence : ℚ
  reason : JVal
  routed_to : String


/-- Decision logic of `QueryRouter.classify` (src/agents/agent.py),
applied to the router model's response text.  The LLM call itself is
lifted out (the pipeline model feeds the response text in); the
returned `LLMResponse` bookkeeping is handled by `run`.  An
`Except.error` marks an uncaught Python exception: `.get` on a
non-dict parse result (`AttributeError`) or `float()` on a
non-numeric confidence (`ValueError`/`TypeError`). -/
def classify (confidence_threshold : ℚ) (router_content : String) :
    Except String RoutingDecision :=
  match safe_json_parse router_content with
  | none =>
    .ok { complexity := .jstr "COMPLEX", confidence := 1/2,
          reason := .jstr "router parse failure - defaulting to large model",
          routed_to := "large" }
  | some (.jobj fields) =>
    let complexity := (objGet fields "complexity").getD (.jstr "COMPLEX")
    match pyFloat ((objGet fields "confidence").getD (.jnum (1/2))) with
    | none => .error "float() raised: confidence is not numeric"
    | some confidence =>
      let routed_to :=
        if jvalEqStr complexity "COMPLEX" || confidence < confidence_threshold
        then "large" else "small"
      .ok { complexity, confidence,
            reason := (objGet fields "reason").getD (.jstr ""), routed_to }
  | some _ =>
    .error "AttributeError: parse result is not a dict and has no method get"

/-- The three `InputGuardError` cases of the specification
(src/guardrails/input_guard.py raises them with fixed messages). -/
inductive GuardError where
  | EmptyInput
  | TooLong
  | DisallowedPattern
deriving DecidableEq

/-- The hard-coded injection patterns of `InputGuard.validate`. -/
def injection_patterns : List String :=
  ["ignore previous instructions", "ignore all instructions",
   "disregard your instructions", "you are now", "new instructions:"]

/-- Embedding of `InputGuard.validate` (src/guardrails/input_guard.py).
It is a pure function of the query: no model call is involved. -/
def validate (max_input_length : Nat) (query : String) : Except GuardError String :=
  if query = "" || pyStrip query = "" then .error .EmptyInput
  else if query.length > max_input_length then .error .TooLong
  else if injection_patterns.any (fun p => subMatch p.data (pyLower query).data) then
    .error .DisallowedPattern
  else .ok (pyStrip query)

/-- Python slice `l[:k]` for a possibly negative bound `k`. -/
def pySliceTo (l : List Char) (k : Int) : List Char :=
  if 0 ≤ k then l.take k.toNat else l.take (l.length - (-k).toNat)

/-- Remove every non-overlapping, leftmost-first, shortest span that
starts with `op` and ends with `cl`, as `re.sub(op + ".*?" + cl, "", s,
flags=DOTALL)` does.  Fuel-indexed; each removal consumes at least one
character, so `length + 1` fuel always suffices. -/
def removeSpans (op cl : List Char) : Nat → List Char → List Char
  | 0, s => s
  | fuel + 1, s =>
    match findSub op s with
    | none => s
    | some i =>
      let after := s.drop (i + op.length)
      match findSub cl after with
      | none => s
      | some j =>
        s.take i ++ removeSpans op cl fuel (after.drop (j + cl.length))

/-- One `re.sub` pass for a paired delimiter pattern. -/
def subPair (op cl : String) (s : String) : String :=
  ⟨removeSpans op.data cl.data (s.data.length + 1) s.data⟩

/-- The delimiter pairs of `OutputGuard._remove_instruction_leakage`. -/
def leak_patterns : List (String × String) :=
  [("<|system|>", "<|/system|>"), ("[INST]", "[/INST]"), ("<<SYS>>", "<</SYS>>")]

/-- Embedding of `OutputGuard._remove_instruction_leakage`
(src/guardrails/output_guard.py): the three substitutions applied in
order. -/
def remove_instruction_leakage (text : String) : String :=
  leak_patterns.foldl (fun t p => subPair p.1 p.2 t) text

/-- The fixed truncation marker appended by `OutputGuard.sanitize`. -/
def truncation_marker : String := "\n\n[Response truncated due to length.]"

/-- The fixed apology returned by `OutputGuard.sanitize` on falsy input. -/
def apology_text : String := "I wasn't able to generate a response. Please try again."

/-- Embedding of `OutputGuard.sanitize` (src/guardrails/output_guard.py).
The cutoff comparison `last_sentence > len(output) * 0.8` is modelled
with the exact rational 4/5: for an integer left-hand side the float
comparison with `len * float(0.8)` provably decides identically
(when `0.8 * len` is not an integer the two bounds lie in the same
open unit interval, and when it is the integer `n` the rounding error
`len * 2⁻⁵⁴ · 0.8 < ulp(n)/2` makes the product round to exactly `n`). -/
def sanitize (max_output_length : Nat) (output : String) : String :=
  if output = "" then apology_text
  else
    let o₁ := pyStrip output
    let o₂ := remove_instruction_leakage o₁
    if o₂.length > max_output_length then
      let t : List Char := pySliceTo o₂.data ((max_output_length : Int) - 50)
      let t₂ : List Char :=
        match rfindCharIdx (· = '.') t with
        | some i => if (i : ℚ) > (t.length : ℚ) * (4 / 5) then t.take (i + 1) else t
        | none => t
      ⟨t₂⟩ ++ truncation_marker
    else o₂

/-- Round-half-to-even to an integer, the tie-breaking rule of Python
`round`. -/
def roundHalfEven (q : ℚ) : ℤ :=
  let f := ⌊q⌋
  let r := q - (f : ℚ)
  if r < 1 / 2 then f
  else if (1 : ℚ) / 2 < r then f + 1
  else if f % 2 = 0 then f else f + 1

/-- Python `round(q, ndigits)` on exact rationals. -/
def pyRound (q : ℚ) (ndigits : Nat) : ℚ :=
  (roundHalfEven (q * (10 : ℚ) ^ ndigits) : ℚ) / (10 : ℚ) ^ ndigits

/-- Structured response of an LLM call (`LLMResponse` in
src/utils/llm_client.py). -/
structure LLMResponse where
  content : String
  model_name : String
  input_tokens : Nat
  output_tokens : Nat
  total_tokens : Nat
  estimated_cost_usd : ℚ


/-- Per-tier model configuration: name plus the two per-1k-token cost
rates read from external configuration. -/
structure ModelConfig where
  name : String
  cost_per_1k_input : ℚ
  cost_per_1k_output : ℚ

/-- Embedding of `LLMClient.estimate_cost` (src/utils/llm_client.py). -/
def estimate_cost (cfg : ModelConfig) (input_tokens output_tokens : Nat) : ℚ :=
  pyRound ((input_tokens : ℚ) / 1000 * cfg.cost_per_1k_input +
    (output_tokens : ℚ) / 1000 * cfg.cost_per_1k_output) 6

/-- Embedding of `LLMClient.invoke` (src/utils/llm_client.py): the
network call is an oracle (`model_output` is the text the model
returns); the token counts come from a deterministic tokenizer `tok`
applied to `system_prompt + prompt` and to the output, exactly as the
code computes them. -/
def invoke (tok : String → Nat) (cfg : ModelConfig)
    (prompt system_prompt model_output : String) : LLMResponse :=
  let input_tokens := tok (system_prompt ++ prompt)
  let output_tokens := tok model_output
  { content := model_output, model_name := cfg.name, input_tokens, output_tokens,
    total_tokens := input_tokens + output_tokens,
    estimated_cost_usd := estimate_cost cfg input_tokens output_tokens }

/-- Externally visible result of one pipeline run (`RequestOutcome` of
the specification, the dict returned by `SmartRouterPipeline.run`). -/
structure RequestOutcome where
  answer : String
  model_used : String
  complexity : JVal
  confidence : ℚ
  tokens_used : Nat
  estimated_cost_usd : ℚ

/-- Ways `SmartRouterPipeline.run` can raise: a guard rejection, or an
uncaught exception escaping the classification step. -/
inductive RunError where
  | guard : GuardError → RunError
  | classifyFailure : String → RunError
deriving DecidableEq

/-- Static environment of the pipeline: tokenizer, per-tier model
configurations, thresholds and prompt texts, all loaded from external
configuration in the source. -/
structure PipelineEnv where
  tok : String → Nat
  router_cfg : ModelConfig
  small_cfg : ModelConfig
  large_cfg : ModelConfig
  confidence_threshold : ℚ
  max_input_length : Nat
  max_output_length : Nat
  router_system : String
  agent_system : String

/-- Tier lookup `self.config["models"][tier]` for the selected tier,
which at that point is always "small" or "large". -/
def tierCfg (env : PipelineEnv) (tier : String) : ModelConfig :=
  if tier = "small" then env.small_cfg else env.large_cfg

/-- The final prompt built in step 3 of `SmartRouterPipeline.run`: the
context, when truthy, is prepended with the fixed delimiter structure;
an absent or empty context leaves the query verbatim. -/
def fullPrompt (context : Option String) (query : String) : String :=
  match context with
  | some c => if c = "" then query else "Context:\n" ++ c ++ "\n\nQuestion:\n" ++ query
  | none => query

/-- Embedding of `SmartRouterPipeline.run` (src/chains/pipeline.py).
The two LLM calls are oracles: `router_content` is the router model's
response text and `answer_content tier` the selected model's response.
Mirrors the code exactly: the validated query is discarded (the raw
`query` is reused), a forced tier skips the router call and contributes
zero routing tokens/cost, and the final cost is rounded to six decimal
places. -/
def run (env : PipelineEnv) (query : String) (context : Option String)
    (force_model : Option String) (router_content : String)
    (answer_content : String → String) : Except RunError RequestOutcome :=
  match validate env.max_input_length query with
  | .error e => .error (.guard e)
  | .ok _ =>
    let step₂ : Except RunError (String × JVal × ℚ × Nat × ℚ) :=
      if force_model = some "large" ∨ force_model = some "small" then
        .ok (force_model.getD "large", .jstr "FORCED", 1, 0, 0)
      else
        let router_response := invoke env.tok env.router_cfg query env.router_system router_content
        match classify env.confidence_threshold router_content with
        | .error msg => .error (.classifyFailure msg)
        | .ok d =>
          .ok (d.routed_to, d.complexity, d.confidence,
               router_response.total_tokens, router_response.estimated_cost_usd)
    match step₂ with
    | .error e => .error e
    | .ok (tier, complexity, confidence, routing_tokens, routing_cost) =>
      let response :=
        invoke env.tok (tierCfg env tier) (fullPrompt context query) env.agent_system (answer_content tier)
      let answer := sanitize env.max_output_length response.content
      .ok { answer, model_used := response.model_name, complexity, confidence,
            tokens_used := routing_tokens + response.total_tokens,
            estimated_cost_usd := pyRound (routing_cost + response.estimated_cost_usd) 6 }

/-- One request's cost record (`CostRecord` in src/agents/agent.py). -/
structure CostRecord where
  model_used : String
  tokens_used : Nat
  estimated_cost_usd : ℚ
  complexity : String

/-- Aggregate cost metrics (`CostTracker.get_summary`'s result dict). -/
structure CostSummary where
  total_requests : Nat
  total_tokens : Nat
  total_cost_usd : ℚ
  routed_to_small : Nat
  routed_to_large : Nat
  cost_savings_pct : ℚ
deriving DecidableEq

/-- Embedding of `CostTracker.get_summary` (src/agents/agent.py).  The
two rates are `config["models"]["large"].get("cost_per_1k_input", 0)`
and the output analogue; the record log is the tracker's state. -/
def get_summary (cost_per_1k_input cost_per_1k_output : ℚ)
    (records : List CostRecord) : CostSummary :=
  if records.isEmpty then
    { total_requests := 0, total_tokens := 0, total_cost_usd := 0,
      routed_to_small := 0, routed_to_large := 0, cost_savings_pct := 0 }
  else
    let total_tokens := (records.map CostRecord.tokens_used).sum
    let actual_cost := (records.map CostRecord.estimated_cost_usd).sum
    let routed_small :=
      (records.filter (fun r => subMatch "flash".data (pyLower r.model_used).data)).length
    let routed_large := records.length - routed_small
    let hypothetical_cost :=
      (total_tokens : ℚ) / 1000 * (cost_per_1k_input + cost_per_1k_output) / 2
    let savings_pct : ℚ :=
      if hypothetical_cost > 0 then
        pyRound ((hypothetical_cost - actual_cost) / hypothetical_cost * 100) 1
      else 0
    { total_requests := records.length, total_tokens,
      total_cost_usd := pyRound actual_cost 6,
      routed_to_small := routed_small, routed_to_large := routed_large,
      cost_savings_pct := max savings_pct 0 }

/-- Suffix test: does `hay` end with `needle`? -/
def sufMatch (needle hay : List Char) : Bool :=
  prefixMatch needle.reverse hay.reverse

/-- Truncation rule exactly as the specification words it (stated for
comparison with `sanitize`): truncate to `max_length - 50` characters,
cut just after the last sentence terminator when it lies past 80% of
the truncated length, and append the fixed truncation marker. -/
def truncationPerSpec (max_length : Nat) (s : String) : String :=
  let t := s.data.take (max_length - 50)
  let cut : List Char :=
    match rfindCharIdx (fun c => c = '.') t with
    | some i => if (i : ℚ) > (t.length : ℚ) * (4 / 5) then t.take (i + 1) else t
    | none => t
  (⟨cut⟩ : String) ++ truncation_marker

/-- Concrete pipeline environment used to exhibit concrete runs: a
length tokenizer and simple exact rates (the flash-family small/router
tiers and a pro large tier, as in the default settings). -/
def exampleEnv : PipelineEnv :=
  { tok := String.length,
    router_cfg := ⟨"gemini-1.5-flash", 1 / 10000, 3 / 10000⟩,
    small_cfg := ⟨"gemini-1.5-flash", 1 / 10000, 3 / 10000⟩,
    large_cfg := ⟨"gemini-1.5-pro", 5 / 4000, 5 / 1000⟩,
    confidence_threshold := 7 / 10,
    max_input_length := 10000,
    max_output_length := 4096,
    router_system := "route it",
    agent_system := "answer it" }

/-- Claim C2, counterexample: on unparseable router output the
decision's `reason` is the fixed string
"router parse failure - defaulting to large model", not the string
"parse failure" the claim states. -/
theorem parse_failure_reason_cex :
    classify (7 / 10) "The router did not answer with structured data." =
      .ok { complexity := .jstr "COMPLEX", confidence := 1 / 2,
            reason := .jstr "router parse failure - defaulting to large model",
            routed_to := "large" } ∧
    JVal.jstr "router parse failure - defaulting to large model" ≠ JVal.jstr "parse failure" := by
  refine ⟨rfl, fun h => ?_⟩
  injection h with h'
  exact absurd h' (by decide)

/-- Claim C2 (amended): for every router-response text whose structured
parse fails entirely, `classify` returns the fail-safe decision with
complexity "COMPLEX", confidence 0.5, routed_to "large" (never the
small tier), and reason the fixed string
"router parse failure - defaulting to large model". -/
theorem parse_failure_fallback (thr : ℚ) (t : String)
    (h : safe_json_parse t = none) :
    classify thr t =
      .ok { complexity := .jstr "COMPLEX", confidence := 1 / 2,
            reason := .jstr "router parse failure - defaulting to large model",
            routed_to := "large" } := by
  unfold classify
  rw [h]

/-- Witness for the amended C2 at a concrete unparseable text. -/
theorem parse_failure_fallback_witness :
    classify (7 / 10) "not json at all" =
      .ok { complexity := .jstr "COMPLEX", confidence := 1 / 2,
            reason := .jstr "router parse failure - defaulting to large model",
            routed_to := "large" } :=
  parse_failure_fallback (7 / 10) "not json at all" (by rfl)

/-- Claim C3, counterexample: a valid JSON object embedded in prose
without a code fence is NOT parsed — `safe_json_parse` returns `none`
although the first-brace-to-last-brace slice exists and parses as the
expected object. -/
theorem json_prose_extraction_cex :
    safe_json_parse
        "Sure! Here you go: \x7b\"complexity\": \"SIMPLE\", \"confidence\": 0.9\x7d Let me know." =
      none ∧
    braceSlice (pyStrip
        "Sure! Here you go: \x7b\"complexity\": \"SIMPLE\", \"confidence\": 0.9\x7d Let me know.") =
      some "\x7b\"complexity\": \"SIMPLE\", \"confidence\": 0.9\x7d" ∧
    jsonLoads "\x7b\"complexity\": \"SIMPLE\", \"confidence\": 0.9\x7d" =
      some (.jobj [("complexity", .jstr "SIMPLE"), ("confidence", .jnum (9 / 10))]) :=
  ⟨rfl, rfl, by with_unfolding_all rfl⟩

/-- Claim C3 (amended): the first-brace-to-last-brace slice recovery
applies only when the text contains a markdown fence; when the
stripped text contains "```", the direct parse fails and the slice
parses as JSON, `safe_json_parse` returns the slice's value. -/
theorem fenced_json_extraction (t sl : String) (v : JVal)
    (hf : subMatch "```".data (pyStrip t).data = true)
    (hd : jsonLoads (pyStrip t) = none)
    (hs : braceSlice (pyStrip t) = some sl)
    (hv : jsonLoads sl = some v) :
    safe_json_parse t = some v := by
  unfold safe_json_parse
  simp only [hd, hf, hs, hv, if_true]

/-- Witness for the amended C3: a fenced JSON block surrounded by
markdown is parsed to the embedded object. -/
theorem fenced_json_extraction_witness :
    safe_json_parse "```json\n\x7b\"complexity\": \"COMPLEX\"\x7d\n```" =
      some (.jobj [("complexity", .jstr "COMPLEX")]) :=
  fenced_json_extraction "```json\n\x7b\"complexity\": \"COMPLEX\"\x7d\n```"
    "\x7b\"complexity\": \"COMPLEX\"\x7d" (.jobj [("complexity", .jstr "COMPLEX")])
    (by rfl) (by rfl) (by rfl) (by rfl)

/-- Claim C4 is a code bug: classification CAN make
`SmartRouterPipeline.run` fail after input validation.  When the
router's text parses as non-object JSON (`json.loads` may return a
list despite `safe_json_parse`'s declared `dict | None` type), the
`.get` call raises `AttributeError`; when the parsed confidence is a
non-numeric string, `float()` raises `ValueError`.  Both escape
`classify` and propagate out of `run`. -/
theorem classification_uncaught_exceptions :
    classify (7 / 10) "[1, 2]" =
      .error "AttributeError: parse result is not a dict and has no method get" ∧
    classify (7 / 10) "\x7b\"complexity\": \"SIMPLE\", \"confidence\": \"very high\"\x7d" =
      .error "float() raised: confidence is not numeric" ∧
    run exampleEnv "What is Python?" none none "[1, 2]" (fun _ => "Python is a language.") =
      .error (.classifyFailure "AttributeError: parse result is not a dict and has no method get") :=
  ⟨rfl, rfl, rfl⟩

/-- Claim C1: for every successfully parsed router response (an object
whose confidence converts with `float()`), `classify` routes to the
large tier exactly when the parsed complexity equals "COMPLEX"
(Python string equality) or the parsed confidence is strictly below
the configured confidence threshold, and to the small tier otherwise. -/
theorem routing_policy_iff (thr : ℚ) (t : String)
    (fields : List (String × JVal)) (conf : ℚ) (d : RoutingDecision)
    (hp : safe_json_parse t = some (.jobj fields))
    (hc : pyFloat ((objGet fields "confidence").getD (.jnum (1 / 2))) = some conf)
    (hd : classify thr t = .ok d) :
    (d.routed_to = "large" ↔
      (jvalEqStr ((objGet fields "complexity").getD (.jstr "COMPLEX")) "COMPLEX" = true ∨
        conf < thr)) ∧
    (d.routed_to = "small" ↔
      ¬(jvalEqStr ((objGet fields "complexity").getD (.jstr "COMPLEX")) "COMPLEX" = true ∨
        conf < thr)) := by
  unfold classify at hd
  rw [hp] at hd
  simp only [hc] at hd
  by_cases hcond :
      jvalEqStr ((objGet fields "complexity").getD (.jstr "COMPLEX")) "COMPLEX" = true ∨
        conf < thr
  · have hb : (jvalEqStr ((objGet fields "complexity").getD (.jstr "COMPLEX")) "COMPLEX" ||
        decide (conf < thr)) = true := by
      rcases hcond with h | h
      · simp [h]
      · simp [h]
    rw [hb] at hd
    simp only [if_true] at hd
    injection hd with hd'
    subst hd'
    simp [hcond]
  · have hb : (jvalEqStr ((objGet fields "complexity").getD (.jstr "COMPLEX")) "COMPLEX" ||
        decide (conf < thr)) = false := by
      push_neg at hcond
      simp [hcond.1, hcond.2]
    rw [hb] at hd
    simp only [Bool.false_eq_true, if_false] at hd
    injection hd with hd'
    subst hd'
    simp [hcond]

/-- Witness for C1 at the specification's example configuration:
threshold 0.7 with the parsed decision SIMPLE at confidence 0.9 routes
to the small tier. -/
theorem routing_policy_iff_witness :
    (("small" : String) = "large" ↔
      (jvalEqStr ((objGet [("complexity", JVal.jstr "SIMPLE"),
          ("confidence", JVal.jnum (9 / 10))] "complexity").getD (.jstr "COMPLEX"))
          "COMPLEX" = true ∨ (9 / 10 : ℚ) < 7 / 10)) ∧
    (("small" : String) = "small" ↔
      ¬(jvalEqStr ((objGet [("complexity", JVal.jstr "SIMPLE"),
          ("confidence", JVal.jnum (9 / 10))] "complexity").getD (.jstr "COMPLEX"))
          "COMPLEX" = true ∨ (9 / 10 : ℚ) < 7 / 10)) :=
  routing_policy_iff (7 / 10) "\x7b\"complexity\": \"SIMPLE\", \"confidence\": 0.9\x7d"
    [("complexity", JVal.jstr "SIMPLE"), ("confidence", JVal.jnum (9 / 10))] (9 / 10)
    { complexity := .jstr "SIMPLE", confidence := 9 / 10, reason := .jstr "",
      routed_to := "small" }
    (by with_unfolding_all rfl) (by with_unfolding_all rfl) (by with_unfolding_all rfl)

/-- Claim C5: for every completed pipeline run, `tokens_used` is the
router call's total tokens (zero when a tier was forced) plus the
selected-tier call's total tokens, `estimated_cost_usd` is the router
call's cost plus the selected-tier call's cost rounded to six decimal
places, and every completion result satisfies
`total_tokens = input_tokens + output_tokens`. -/
theorem outcome_cost_token_sums (env : PipelineEnv) (query : String)
    (context : Option String) (force_model : Option String)
    (router_content : String) (answer_content : String → String)
    (d : RoutingDecision) (out : RequestOutcome)
    (hd : classify env.confidence_threshold router_content = .ok d)
    (hrun : run env query context force_model router_content answer_content = .ok out) :
    out.tokens_used =
      (if force_model = some "large" ∨ force_model = some "small" then 0
       else (invoke env.tok env.router_cfg query env.router_system router_content).total_tokens) +
      (invoke env.tok
        (tierCfg env (if force_model = some "large" ∨ force_model = some "small"
          then force_model.getD "large" else d.routed_to))
        (fullPrompt context query) env.agent_system
        (answer_content (if force_model = some "large" ∨ force_model = some "small"
          then force_model.getD "large" else d.routed_to))).total_tokens ∧
    out.estimated_cost_usd = pyRound
      ((if force_model = some "large" ∨ force_model = some "small" then 0
        else (invoke env.tok env.router_cfg query env.router_system router_content).estimated_cost_usd) +
       (invoke env.tok
        (tierCfg env (if force_model = some "large" ∨ force_model = some "small"
          then force_model.getD "large" else d.routed_to))
        (fullPrompt context query) env.agent_system
        (answer_content (if force_model = some "large" ∨ force_model = some "small"
          then force_model.getD "large" else d.routed_to))).estimated_cost_usd) 6 ∧
    ∀ (tok : String → Nat) (cfg : ModelConfig) (p sp c : String),
      (invoke tok cfg p sp c).total_tokens =
        (invoke tok cfg p sp c).input_tokens + (invoke tok cfg p sp c).output_tokens := by
  unfold run at hrun
  cases hval : validate env.max_input_length query with
  | error e => rw [hval] at hrun; exact absurd hrun (by simp)
  | ok q' =>
    rw [hval] at hrun
    by_cases hforce : force_model = some "large" ∨ force_model = some "small"
    · rw [if_pos hforce] at hrun
      simp only [] at hrun
      injection hrun with hrun'
      subst hrun'
      refine ⟨by simp [hforce], by simp [hforce], fun tok cfg p sp c => rfl⟩
    · rw [if_neg hforce] at hrun
      rw [hd] at hrun
      simp only [] at hrun
      injection hrun with hrun'
      subst hrun'
      refine ⟨by simp [hforce, invoke], by simp [hforce, invoke], fun tok cfg p sp c => rfl⟩

/-- Witness for C5: a concrete completed run (router says SIMPLE at
0.9, routed to the small tier) whose outcome totals 111 tokens and
0.000024 dollars, the sums over the router call and the selected-tier
call. -/
theorem outcome_cost_token_sums_witness :
    (111 : Nat) = 111 ∧ (3 / 125000 : ℚ) = 3 / 125000 ∧
    ∀ (tok : String → Nat) (cfg : ModelConfig) (p sp c : String),
      (invoke tok cfg p sp c).total_tokens =
        (invoke tok cfg p sp c).input_tokens + (invoke tok cfg p sp c).output_tokens := by
  with_unfolding_all
  exact outcome_cost_token_sums exampleEnv "What is Python?" none none
    "\x7b\"complexity\": \"SIMPLE\", \"confidence\": 0.9\x7d"
    (fun _ => "Python is a language.")
    { complexity := .jstr "SIMPLE", confidence := 9 / 10, reason := .jstr "",
      routed_to := "small" }
    { answer := "Python is a language.", model_used := "gemini-1.5-flash",
      complexity := .jstr "SIMPLE", confidence := 9 / 10, tokens_used := 111,
      estimated_cost_usd := 3 / 125000 }
    (by with_unfolding_all rfl) (by with_unfolding_all rfl)

/-- Claim C6: `InputGuard.validate` fails with `EmptyInput` exactly
when the trimmed query is empty; with `TooLong` (given a non-empty
trimmed query) exactly when the length exceeds the configured maximum;
with `DisallowedPattern` (given a non-empty, not-too-long query)
exactly when the lower-cased query contains a hard-coded injection
phrase; and succeeds with the trimmed query otherwise.  The embedding
of `validate` is a pure function of the query: no model call occurs. -/
theorem input_guard_cases (max_input_length : Nat) (query : String) :
    (validate max_input_length query = .error .EmptyInput ↔ pyStrip query = "") ∧
    (validate max_input_length query = .error .TooLong ↔
      pyStrip query ≠ "" ∧ query.length > max_input_length) ∧
    (validate max_input_length query = .error .DisallowedPattern ↔
      pyStrip query ≠ "" ∧ query.length ≤ max_input_length ∧
        ∃ p ∈ injection_patterns, subMatch p.data (pyLower query).data = true) ∧
    (validate max_input_length query = .ok (pyStrip query) ↔
      pyStrip query ≠ "" ∧ query.length ≤ max_input_length ∧
        ∀ p ∈ injection_patterns, subMatch p.data (pyLower query).data = false) := by
  have hq : query = "" → pyStrip query = "" := fun h => by rw [h]; rfl
  by_cases h1 : pyStrip query = ""
  · have hcond : (query = "" || pyStrip query = "") = true := by simp [h1]
    simp [validate, hcond, h1]
  · have hq' : ¬query = "" := fun h => h1 (hq h)
    have hcond : (query = "" || pyStrip query = "") = false := by simp [h1, hq']
    by_cases h2 : query.length > max_input_length
    · simp [validate, hcond, hq', h1, h2, Nat.not_le_of_lt h2]
    · have h2' : query.length ≤ max_input_length := Nat.le_of_not_lt h2
      by_cases h3 : injection_patterns.any (fun p => subMatch p.data (pyLower query).data) = true
      · rw [List.any_eq_true] at h3
        simp [validate, hcond, hq', h1, h2, h2', List.any_eq_true, h3]
      · rw [List.any_eq_true] at h3
        push_neg at h3
        simp only [Bool.not_eq_true] at h3
        have h3e : ¬∃ p ∈ injection_patterns, subMatch p.data (pyLower query).data = true := by
          rintro ⟨p, hp, ht⟩
          rw [h3 p hp] at ht
          exact Bool.false_ne_true ht
        simp [validate, hcond, hq', h1, h2, h2', List.any_eq_true, h3e]
        exact h3

/-- Claim C7: when `force_model` is "small" or "large" the pipeline
skips classification entirely — the outcome does not depend on the
router's response text — and the outcome has complexity "FORCED",
confidence 1.0, and a routing contribution of exactly zero tokens and
zero cost: the totals come solely from the forced-tier call. -/
theorem forced_tier_bypass (env : PipelineEnv) (query : String)
    (context : Option String) (force_model : Option String)
    (router_content other_router_content : String) (answer_content : String → String)
    (out : RequestOutcome)
    (hforce : force_model = some "small" ∨ force_model = some "large")
    (hrun : run env query context force_model router_content answer_content = .ok out) :
    out.complexity = .jstr "FORCED" ∧
    out.confidence = 1 ∧
    out.tokens_used = 0 +
      (invoke env.tok (tierCfg env (force_model.getD "large")) (fullPrompt context query)
        env.agent_system (answer_content (force_model.getD "large"))).total_tokens ∧
    out.estimated_cost_usd = pyRound ((0 : ℚ) +
      (invoke env.tok (tierCfg env (force_model.getD "large")) (fullPrompt context query)
        env.agent_system (answer_content (force_model.getD "large"))).estimated_cost_usd) 6 ∧
    run env query context force_model other_router_content answer_content = .ok out := by
  have hforce' : force_model = some "large" ∨ force_model = some "small" := hforce.symm
  unfold run at hrun ⊢
  cases hval : validate env.max_input_length query with
  | error e => rw [hval] at hrun; exact absurd hrun (by simp)
  | ok q' =>
    rw [hval] at hrun
    rw [if_pos hforce'] at hrun
    simp only [] at hrun
    injection hrun with hrun'
    subst hrun'
    refine ⟨rfl, rfl, rfl, rfl, ?_⟩
    rw [if_pos hforce']

/-- Witness for C7: a concrete forced-small run; complexity is FORCED,
confidence 1, and the totals are exactly the forced-tier call's 45
tokens and 0.000009 dollars, independent of the router text. -/
theorem forced_tier_bypass_witness :
    (JVal.jstr "FORCED" = JVal.jstr "FORCED") ∧ ((1 : ℚ) = 1) ∧
    ((45 : Nat) = 45) ∧ ((9 / 1000000 : ℚ) = 9 / 1000000) ∧
    run exampleEnv "What is Python?" none (some "small") "another router text"
      (fun _ => "Python is a language.") =
      .ok { answer := "Python is a language.", model_used := "gemini-1.5-flash",
            complexity := .jstr "FORCED", confidence := 1, tokens_used := 45,
            estimated_cost_usd := 9 / 1000000 } := by
  with_unfolding_all
  exact forced_tier_bypass exampleEnv "What is Python?" none (some "small")
    "ignored router text" "another router text" (fun _ => "Python is a language.")
    { answer := "Python is a language.", model_used := "gemini-1.5-flash",
      complexity := .jstr "FORCED", confidence := 1, tokens_used := 45,
      estimated_cost_usd := 9 / 1000000 }
    (Or.inl rfl) (by with_unfolding_all rfl)

/-- Claim C8: for every record log and configured large-tier rates,
`get_summary` reports `cost_savings_pct` equal to
`max(0, round((hypothetical - total_cost)/hypothetical * 100, 1))`
when the hypothetical all-large cost (total tokens per thousand times
the average of the two large-tier rates) is positive, and 0 otherwise;
in particular the savings percentage is never negative. -/
theorem cost_savings_formula (cost_per_1k_input cost_per_1k_output : ℚ)
    (records : List CostRecord) :
    (get_summary cost_per_1k_input cost_per_1k_output records).cost_savings_pct =
      (if ((records.map CostRecord.tokens_used).sum : ℚ) / 1000 *
            (cost_per_1k_input + cost_per_1k_output) / 2 > 0 then
        max 0 (pyRound
          ((((records.map CostRecord.tokens_used).sum : ℚ) / 1000 *
              (cost_per_1k_input + cost_per_1k_output) / 2 -
            (records.map CostRecord.estimated_cost_usd).sum) /
           (((records.map CostRecord.tokens_used).sum : ℚ) / 1000 *
              (cost_per_1k_input + cost_per_1k_output) / 2) * 100) 1)
       else 0) ∧
    0 ≤ (get_summary cost_per_1k_input cost_per_1k_output records).cost_savings_pct := by
  cases records with
  | nil => simp [get_summary]
  | cons r rs =>
    constructor
    · simp only [get_summary, List.isEmpty_cons, Bool.false_eq_true, if_false]
      by_cases hpos : ((List.map CostRecord.tokens_used (r :: rs)).sum : ℚ) / 1000 *
          (cost_per_1k_input + cost_per_1k_output) / 2 > 0
      · rw [if_pos hpos, if_pos hpos, max_comm]
      · rw [if_neg hpos, if_neg hpos]
        simp
    · simp only [get_summary, List.isEmpty_cons, Bool.false_eq_true, if_false]
      exact le_max_right _ _

/-- A list is a prefix of itself followed by anything. -/
theorem prefixMatch_self_append (xs ys : List Char) : prefixMatch xs (xs ++ ys) = true := by
  induction xs with
  | nil => rfl
  | cons a as ih => simp [prefixMatch, ih]

/-- Appending a string makes it a suffix. -/
theorem sufMatch_append_self (l : List Char) (m : String) :
    sufMatch m.data ((⟨l⟩ : String) ++ m).data = true := by
  show prefixMatch m.data.reverse ((⟨l⟩ : String) ++ m).data.reverse = true
  have hd : ((⟨l⟩ : String) ++ m).data = l ++ m.data := rfl
  rw [hd, List.reverse_append]
  exact prefixMatch_self_append _ _

/-- Claim C9: `sanitize` is total (the embedding is a plain function;
the code raises nothing); on empty input it returns the fixed apology
containing "try again"; and whenever the trimmed, leakage-stripped
text exceeds the configured maximum length, the result is exactly the
specification's truncation (truncate to `max_length - 50`, cut after
the last '.' when it lies past 80% of the truncated length, append
the marker) and therefore ends with the truncation marker. -/
theorem output_guard_truncation (max_output_length : Nat) (text : String)
    (h50 : 50 ≤ max_output_length) (hne : text ≠ "")
    (hlong : (remove_instruction_leakage (pyStrip text)).length > max_output_length) :
    sanitize max_output_length text =
      truncationPerSpec max_output_length (remove_instruction_leakage (pyStrip text)) ∧
    sufMatch truncation_marker.data (sanitize max_output_length text).data = true ∧
    sanitize max_output_length "" = apology_text ∧
    subMatch "try again".data apology_text.data = true := by
  have hslice : pySliceTo (remove_instruction_leakage (pyStrip text)).data
      ((max_output_length : Int) - 50) =
      (remove_instruction_leakage (pyStrip text)).data.take (max_output_length - 50) := by
    unfold pySliceTo
    rw [if_pos (by omega : (0 : ℤ) ≤ (max_output_length : ℤ) - 50)]
    congr 1
    omega
  have hmain : sanitize max_output_length text =
      truncationPerSpec max_output_length (remove_instruction_leakage (pyStrip text)) := by
    simp only [sanitize, truncationPerSpec, hslice]
    rw [if_neg hne, if_pos hlong]
  refine ⟨hmain, ?_, rfl, by decide⟩
  rw [hmain]
  exact sufMatch_append_self _ _

/-- Witness for C9 at `max_output_length = 60` on a 70-character text:
the sentence terminator at index 9 of the 10-character truncation lies
past 80%, so the cut lands just after it and the marker follows. -/
theorem output_guard_truncation_witness :
    sanitize 60 "abcdefghi.klmnopqrstuvwxyzabcdefghijklmnopqrstuvwxyzabcdefghijklmnopqr" =
      truncationPerSpec 60 (remove_instruction_leakage
        (pyStrip "abcdefghi.klmnopqrstuvwxyzabcdefghijklmnopqrstuvwxyzabcdefghijklmnopqr")) ∧
    sufMatch truncation_marker.data
      (sanitize 60 "abcdefghi.klmnopqrstuvwxyzabcdefghijklmnopqrstuvwxyzabcdefghijklmnopqr").data =
      true ∧
    sanitize 60 "" = apology_text ∧
    subMatch "try again".data apology_text.data = true :=
  output_guard_truncation 60
    "abcdefghi.klmnopqrstuvwxyzabcdefghijklmnopqrstuvwxyzabcdefghijklmnopqr"
    (by decide) (by decide) (by decide)

/-- Claim C10: a non-empty all-whitespace input passes the falsy check
(only the empty string is falsy), is trimmed to the empty string, and
`sanitize` returns the empty string rather than the apology. -/
theorem whitespace_only_sanitize (max_output_length : Nat) (s : String)
    (hne : s ≠ "") (hws : ∀ c ∈ s.data, pyWs c = true) :
    sanitize max_output_length s = "" := by
  have hstrip : pyStrip s = "" := by
    unfold pyStrip
    have h1 : s.data.dropWhile pyWs = [] := by
      rw [List.dropWhile_eq_nil_iff]
      exact fun c hc => hws c hc
    rw [h1]
    rfl
  simp [sanitize, hne, hstrip, show remove_instruction_leakage "" = "" from rfl]

/-- Witness for C10: three spaces sanitize to the empty string. -/
theorem whitespace_only_sanitize_witness : sanitize 4096 "   " = "" :=
  whitespace_only_sanitize 4096 "   " (by decide) (by decide)
